import Mathlib

/-!
Verification of the e-learning platform's enrollment/progress core.

The repository holds two near-duplicate Flask applications (`app.py` and
`main.py`) plus a setup script.  This file gives a shallow embedding of the
relational state (users, courses, enrollments) and of the request handlers the
claims are about: `register`, `login`, `enroll`, `update_progress`, and the
dashboard queries.  SQL tables become Lean lists of structures; `SERIAL` /
`AUTOINCREMENT` primary keys become explicit counters in the state;
`CURRENT_TIMESTAMP` becomes a `now : Nat` argument threaded into each
operation; `ORDER BY RANDOM()` becomes an arbitrary permutation taken as an
argument; the password hash is an opaque function parameter.
-/

/-- Row of the `users` table (`id, username, email, password, is_admin,
created_at`), as created by `init_db` in both `app.py` and `main.py`. -/
structure User where
  id : Nat
  username : String
  email : String
  password : String
  isAdmin : Bool
  createdAt : Nat
deriving Repr, DecidableEq

/-- Row of the `courses` table (`id, title, description, category, instructor,
duration, level, created_at`). -/
structure Course where
  id : Nat
  title : String
  description : String
  category : String
  instructor : String
  duration : Nat
  level : String
  createdAt : Nat
deriving Repr, DecidableEq

/-- Row of the `enrollments` table (`id, user_id, course_id, progress,
enrolled_at, completed_at`).  `completed_at` is nullable, hence `Option`. -/
structure Enrollment where
  id : Nat
  userId : Nat
  courseId : Nat
  progress : Int
  enrolledAt : Nat
  completedAt : Option Nat
deriving Repr, DecidableEq

/-- The relational store: the three tables plus the auto-increment counters
for the surrogate primary keys. -/
structure DB where
  users : List User
  courses : List Course
  enrollments : List Enrollment
  nextUserId : Nat
  nextCourseId : Nat
  nextEnrollmentId : Nat
deriving Repr, DecidableEq

/-- `SELECT 1 FROM enrollments WHERE user_id = ? AND course_id = ?` —
whether an enrollment row exists for the (user, course) pair. -/
def pairExists (s : DB) (u c : Nat) : Bool :=
  s.enrollments.any (fun e => e.userId == u && e.courseId == c)

/-- The enrollment rows for a given (user, course) pair. -/
def pairRows (s : DB) (u c : Nat) : List Enrollment :=
  s.enrollments.filter (fun e => e.userId == u && e.courseId == c)

/-- `INSERT INTO enrollments (user_id, course_id) VALUES (?, ?)` against the
`app.py` schema, which has no uniqueness constraint on (user_id, course_id):
the insert always succeeds, `progress` defaults to 0 and `completed_at` to
NULL. -/
def insertEnrollment (s : DB) (u c now : Nat) : DB :=
  { s with
    enrollments := s.enrollments ++
      [{ id := s.nextEnrollmentId, userId := u, courseId := c, progress := 0,
         enrolledAt := now, completedAt := none }],
    nextEnrollmentId := s.nextEnrollmentId + 1 }

/-- The same insert against the `main.py` schema, whose `enrollments` table
declares `UNIQUE(user_id, course_id)`: the insert fails (`none`) when a row
for the pair already exists. -/
def insertEnrollmentUnique (s : DB) (u c now : Nat) : Option DB :=
  if pairExists s u c then none else some (insertEnrollment s u c now)

namespace App

/-- Outcome of the `/enroll/<course_id>` handler, by flash message:
`Created` = "Successfully enrolled in the course!",
`AlreadyEnrolled` = "You are already enrolled in this course". -/
inductive EnrollResult where
  | Created
  | AlreadyEnrolled
deriving Repr, DecidableEq

/-- The `enroll` handler of `app.py` (lines 327–353): look the pair up; if no
row exists, insert one; otherwise do nothing.  There is no check that
`course_id` names an existing course. -/
def enroll (s : DB) (userId courseId now : Nat) : EnrollResult × DB :=
  if pairExists s userId courseId then
    (.AlreadyEnrolled, s)
  else
    (.Created, insertEnrollment s userId courseId now)

/-- Outcome of the `/update_progress/<enrollment_id>` handler:
`InvalidProgress` = the "Invalid progress value" flash and redirect (no DB
access), `EnrollmentNotFound` = the "Enrollment not found" flash,
`Updated p` = success with `p` now stored. -/
inductive UpdateResult where
  | InvalidProgress
  | EnrollmentNotFound
  | Updated (stored : Int)
deriving Repr, DecidableEq

/-- The `update_progress` handler of `app.py` (lines 355–397).  The parsed
integer is range-checked first: anything outside [0, 100] raises `ValueError`
and the request is rejected before any database access.  Then the row is
looked up by `id` and the session user's id; if found, `progress` is set by
one UPDATE keyed on `id`, and when the new value is exactly 100 a second
UPDATE sets `completed_at` to the current time. -/
def update_progress (s : DB) (sessionUserId enrollmentId : Nat) (raw : Int)
    (now : Nat) : UpdateResult × DB :=
  if raw < 0 ∨ raw > 100 then
    (.InvalidProgress, s)
  else if s.enrollments.any (fun e => e.id == enrollmentId && e.userId == sessionUserId) then
    let s1 := { s with enrollments := s.enrollments.map (fun e =>
      if e.id == enrollmentId then { e with progress := raw } else e) }
    let s2 :=
      if raw == 100 then
        { s1 with enrollments := s1.enrollments.map (fun e =>
          if e.id == enrollmentId then { e with completedAt := some now } else e) }
      else s1
    (.Updated raw, s2)
  else
    (.EnrollmentNotFound, s)

/-- Outcome of the `/register` handler: `Created` = the row was inserted and
the user is redirected to login, `ConflictError` = the INSERT violated a
UNIQUE constraint and the "Username or email already exists" flash is shown. -/
inductive RegisterResult where
  | Created (uid : Nat)
  | ConflictError
deriving Repr, DecidableEq

/-- The `register` handler of `app.py` (lines 191–217).  The INSERT relies on
the schema's `UNIQUE` constraints on `username` and on `email`: a duplicate
of either raises, the exception is caught, and nothing is committed.  On
success the row is stored with the password hash (never the raw secret) and
`is_admin` at its schema default, false. -/
def register (hash : String → String) (s : DB)
    (username email secret : String) (now : Nat) : RegisterResult × DB :=
  if s.users.any (fun u => u.username == username || u.email == email) then
    (.ConflictError, s)
  else
    (.Created s.nextUserId,
     { s with
       users := s.users ++
         [{ id := s.nextUserId, username := username, email := email,
            password := hash secret, isAdmin := false, createdAt := now }],
       nextUserId := s.nextUserId + 1 })

/-- The dictionary `app.py` stores in `session['user']` on successful login. -/
structure SessionUser where
  id : Nat
  username : String
  email : String
  isAdmin : Bool
deriving Repr, DecidableEq

/-- The POST branch of the `login` handler of `app.py` (lines 167–188):
`SELECT * FROM users WHERE username = ?`, then
`if user and check_password_hash(user[3], password)`.  The observable outcome
is the session user (if any) together with the flash message; both failure
paths — no such username, or a non-matching password — fall into the same
`else` and flash the same "Invalid credentials". -/
def login (checkPw : String → String → Bool) (s : DB)
    (username password : String) : Option SessionUser × String :=
  match s.users.find? (fun u => u.username == username) with
  | some u =>
    if checkPw u.password password then
      (some { id := u.id, username := u.username, email := u.email,
              isAdmin := u.isAdmin },
       "Login successful!")
    else
      (none, "Invalid credentials")
  | none => (none, "Invalid credentials")

/-- The enrolled-courses query of the `dashboard` handler of `app.py`
(lines 233–239): `SELECT c.*, e.progress, e.enrolled_at, … FROM enrollments e
JOIN courses c ON e.course_id = c.id WHERE e.user_id = ?`.  The query has no
ORDER BY, so rows come back in the storage (insertion) order of
`enrollments`; the join keeps an enrollment only when its course exists. -/
def listForUser (s : DB) (userId : Nat) : List (Course × Int × Nat) :=
  s.enrollments.filterMap (fun e =>
    if e.userId == userId then
      (s.courses.find? (fun c => c.id == e.courseId)).map
        (fun c => (c, e.progress, e.enrolledAt))
    else none)

/-- The WHERE clause of the featured-courses query of `app.py`'s `dashboard`
(lines 249–257): courses whose id is NOT IN the user's enrollments. -/
def unenrolledCourses (s : DB) (userId : Nat) : List Course :=
  s.courses.filter (fun c => !pairExists s userId c.id)

/-- The featured-courses query of `app.py`'s `dashboard`:
`SELECT * FROM courses WHERE id NOT IN (SELECT course_id FROM enrollments
WHERE user_id = ?) ORDER BY RANDOM() LIMIT 3`.  The random order is an
arbitrary permutation `shuffled` of the filtered candidate set, supplied as
an argument; the LIMIT keeps the first 3. -/
def dashboardFeatured (_s : DB) (_userId : Nat) (shuffled : List Course) :
    List Course :=
  shuffled.take 3

/-- The `add_course` handler of `app.py` (lines 433–456): an INSERT into
`courses` with the submitted fields. -/
def add_course (s : DB) (title description category instructor : String)
    (duration : Nat) (level : String) (now : Nat) : DB :=
  { s with
    courses := s.courses ++
      [{ id := s.nextCourseId, title := title, description := description,
         category := category, instructor := instructor, duration := duration,
         level := level, createdAt := now }],
    nextCourseId := s.nextCourseId + 1 }

end App

namespace Main

/-- Outcome of the `enroll` handler of `main.py`: as in `app.py`, plus
`DbError` for the `except` branch ("Error enrolling in course"), which rolls
the transaction back. -/
inductive EnrollResult where
  | Created
  | AlreadyEnrolled
  | DbError
deriving Repr, DecidableEq

/-- The `enroll` handler of `main.py` (lines 493–538): the same check-then-act
pattern as `app.py`, but the INSERT runs against the `main.py` schema, whose
`UNIQUE(user_id, course_id)` constraint can make it fail; a failure is caught
and rolled back.  As in `app.py`, no check that the course exists. -/
def enroll (s : DB) (userId courseId now : Nat) : EnrollResult × DB :=
  if pairExists s userId courseId then
    (.AlreadyEnrolled, s)
  else
    match insertEnrollmentUnique s userId courseId now with
    | some s1 => (.Created, s1)
    | none => (.DbError, s)

/-- The featured-courses query of `main.py`'s `dashboard` (lines 380–393):
`SELECT * FROM courses ORDER BY RANDOM() LIMIT 3` — note the absence of any
filter on the user's enrollments.  `shuffled` is the random permutation of
the whole `courses` table. -/
def dashboardFeatured (_s : DB) (_userId : Nat) (shuffled : List Course) :
    List Course :=
  shuffled.take 3

/-- The enrolled-courses query of `main.py`'s `dashboard` (lines 372–378):
`SELECT c.*, e.progress, … FROM enrollments e JOIN courses c ON
e.course_id = c.id WHERE e.user_id = ?`, again with no ORDER BY. -/
def listForUser (s : DB) (userId : Nat) : List (Course × Int) :=
  s.enrollments.filterMap (fun e =>
    if e.userId == userId then
      (s.courses.find? (fun c => c.id == e.courseId)).map
        (fun c => (c, e.progress))
    else none)

end Main

/-- Interleaving of two concurrent `enroll` requests for the same pair.
Each request is two atomic storage accesses — the existence SELECT and the
INSERT.  `overlapped = false` is the sequential schedule (A's SELECT and
INSERT, then B's); `overlapped = true` is the racy schedule where both
SELECTs run before either INSERT. -/
def appDoubleEnroll (overlapped : Bool) (s : DB) (u c t1 t2 : Nat) : DB :=
  if overlapped then
    let seenA := pairExists s u c
    let seenB := pairExists s u c
    let s1 := if seenA then s else insertEnrollment s u c t1
    if seenB then s1 else insertEnrollment s1 u c t2
  else
    let s1 := (App.enroll s u c t1).2
    (App.enroll s1 u c t2).2

/-- The same two schedules against the `main.py` schema, where the INSERT is
guarded by `UNIQUE(user_id, course_id)` and a failed INSERT is rolled back. -/
def mainDoubleEnroll (overlapped : Bool) (s : DB) (u c t1 t2 : Nat) : DB :=
  if overlapped then
    let seenA := pairExists s u c
    let seenB := pairExists s u c
    let s1 :=
      if seenA then s else
        match insertEnrollmentUnique s u c t1 with
        | some s' => s'
        | none => s
    if seenB then s1 else
      match insertEnrollmentUnique s1 u c t2 with
      | some s' => s'
      | none => s1
  else
    let s1 := (Main.enroll s u c t1).2
    (Main.enroll s1 u c t2).2

/-- Modelled from the spec: the clamp the spec ascribes to `updateProgress`
("stores `max(0, min(100, p))`").  This is the spec-side property to compare
the code against; no clamping code exists in the repository. -/
def specClamp (p : Int) : Int :=
  max 0 (min 100 p)

/-- Modelled from the spec: the ordering `listForUser` is claimed to have,
"most-recently-enrolled first" — each row's `enrolledAt` is ≥ its
successor's. -/
def recentFirst : List (Course × Int × Nat) → Bool
  | [] => true
  | [_] => true
  | a :: b :: rest => (b.2.2 ≤ a.2.2) && recentFirst (b :: rest)

/-- One mutating request handled by `app.py`, as a step of the state-machine
view of the store (reads are omitted: they do not change the state). -/
inductive AppStep (hash : String → String) : DB → DB → Prop where
  | register (s : DB) (username email secret : String) (now : Nat) :
      AppStep hash s (App.register hash s username email secret now).2
  | enroll (s : DB) (userId courseId now : Nat) :
      AppStep hash s (App.enroll s userId courseId now).2
  | update_progress (s : DB) (sessionUserId enrollmentId : Nat) (raw : Int) (now : Nat) :
      AppStep hash s (App.update_progress s sessionUserId enrollmentId raw now).2
  | add_course (s : DB) (title description category instructor : String)
      (duration : Nat) (level : String) (now : Nat) :
      AppStep hash s (App.add_course s title description category instructor duration level now)

/-- States reachable from `s0` by any sequence of `app.py` requests. -/
def AppReachable (hash : String → String) (s0 s : DB) : Prop :=
  Relation.ReflTransGen (AppStep hash) s0 s

/-- Completion half-invariant: every enrollment row at progress 100 has a
non-null `completed_at`. -/
def CompletedAtSet (s : DB) : Prop :=
  ∀ e ∈ s.enrollments, e.progress = 100 → e.completedAt ≠ none

/-! Concrete states used as test fixtures for witnesses and counterexamples. -/

/-- The store right after table creation, before any bootstrap data. -/
def dbEmpty : DB :=
  { users := [], courses := [], enrollments := [],
    nextUserId := 1, nextCourseId := 1, nextEnrollmentId := 1 }

/-- A sample course row. -/
def course1 : Course :=
  { id := 1, title := "Python", description := "", category := "Programming",
    instructor := "Ada", duration := 40, level := "Beginner", createdAt := 0 }

/-- A second sample course row. -/
def course2 : Course :=
  { id := 2, title := "Web", description := "", category := "Web",
    instructor := "Bob", duration := 40, level := "Beginner", createdAt := 0 }

/-- A sample user row. -/
def bobUser : User :=
  { id := 1, username := "bob", email := "bob@x", password := "x",
    isAdmin := false, createdAt := 0 }

/-- One registered user, two courses, nothing enrolled yet. -/
def dbBase : DB :=
  { users := [bobUser], courses := [course1, course2], enrollments := [],
    nextUserId := 2, nextCourseId := 3, nextEnrollmentId := 1 }

/-- `dbBase` after user 1 enrolled in course 1 and pushed progress to 40. -/
def dbProgress40 : DB :=
  { dbBase with
    enrollments := [{ id := 1, userId := 1, courseId := 1, progress := 40,
                      enrolledAt := 5, completedAt := none }],
    nextEnrollmentId := 2 }

/-- `dbBase` with user 1 enrolled in course 1 (progress still 0). -/
def dbEnrolled1 : DB :=
  { dbBase with
    enrollments := [{ id := 1, userId := 1, courseId := 1, progress := 0,
                      enrolledAt := 5, completedAt := none }],
    nextEnrollmentId := 2 }

/-- `dbBase` with user 1 enrolled in course 1 at time 10 and in course 2 at
time 20, in that (insertion) order. -/
def dbTwoEnroll : DB :=
  { dbBase with
    enrollments := [{ id := 1, userId := 1, courseId := 1, progress := 0,
                      enrolledAt := 10, completedAt := none },
                    { id := 2, userId := 1, courseId := 2, progress := 0,
                      enrolledAt := 20, completedAt := none }],
    nextEnrollmentId := 3 }

/-! Helper lemmas shared by several claims. -/

theorem pairExists_insertEnrollment (s : DB) (u c t : Nat) :
    pairExists (insertEnrollment s u c t) u c = true := by
  simp [pairExists, insertEnrollment]

theorem pairRows_insertEnrollment (s : DB) (u c t : Nat) :
    pairRows (insertEnrollment s u c t) u c
      = pairRows s u c ++
        [{ id := s.nextEnrollmentId, userId := u, courseId := c, progress := 0,
           enrolledAt := t, completedAt := none }] := by
  simp [pairRows, insertEnrollment, List.filter_append]

theorem pairRows_eq_nil (s : DB) (u c : Nat) (h : pairExists s u c = false) :
    pairRows s u c = [] := by
  rw [pairRows, List.filter_eq_nil_iff]
  rw [pairExists, List.any_eq_false] at h
  exact h

theorem app_enroll_fresh (s : DB) (u c t : Nat) (h : pairExists s u c = false) :
    App.enroll s u c t = (.Created, insertEnrollment s u c t) := by
  simp [App.enroll, h]

theorem app_enroll_existing (s : DB) (u c t : Nat) (h : pairExists s u c = true) :
    App.enroll s u c t = (.AlreadyEnrolled, s) := by
  simp [App.enroll, h]

theorem main_enroll_fresh (s : DB) (u c t : Nat) (h : pairExists s u c = false) :
    Main.enroll s u c t = (.Created, insertEnrollment s u c t) := by
  simp [Main.enroll, insertEnrollmentUnique, h]

theorem main_enroll_existing (s : DB) (u c t : Nat) (h : pairExists s u c = true) :
    Main.enroll s u c t = (.AlreadyEnrolled, s) := by
  simp [Main.enroll, h]

theorem update_progress_reject (s : DB) (uid eid : Nat) (raw : Int) (now : Nat)
    (h : raw < 0 ∨ raw > 100) :
    App.update_progress s uid eid raw now = (.InvalidProgress, s) := by
  rw [App.update_progress, if_pos h]

theorem update_progress_success (s : DB) (uid eid : Nat) (raw : Int) (now : Nat)
    (h0 : ¬(raw < 0 ∨ raw > 100))
    (hmem : s.enrollments.any (fun e => e.id == eid && e.userId == uid) = true) :
    App.update_progress s uid eid raw now =
      (.Updated raw,
       { s with enrollments := s.enrollments.map (fun e =>
           if e.id == eid then
             { e with progress := raw,
                      completedAt := if raw == 100 then some now else e.completedAt }
           else e) }) := by
  rw [App.update_progress, if_neg h0]
  simp only [hmem, if_true]
  by_cases hr : raw == 100
  · simp only [hr, if_true, List.map_map]
    refine Prod.mk.injEq _ _ _ _ ▸ ⟨rfl, ?_⟩
    congr 1
    apply List.map_congr_left
    intro e _
    by_cases he : e.id == eid
    · simp [Function.comp, he]
    · simp [Function.comp, he]
  · simp [hr]

theorem update_progress_notFound (s : DB) (uid eid : Nat) (raw : Int) (now : Nat)
    (h0 : ¬(raw < 0 ∨ raw > 100))
    (hmem : s.enrollments.any (fun e => e.id == eid && e.userId == uid) = false) :
    App.update_progress s uid eid raw now = (.EnrollmentNotFound, s) := by
  rw [App.update_progress, if_neg h0]
  simp [hmem]

/-- Claim C1: the spec says `updateProgress` stores and returns
`max(0, min(100, rawProgress))` for every integer, "without rejecting the
request".  The code rejects instead of clamping: at rawProgress = -5 against
an existing enrollment owned by the caller that stands at progress 40, the
handler answers with the "Invalid progress value" rejection and leaves the
store unchanged — the stored progress stays 40 rather than the clamped 0. -/
theorem C1_counterexample :
    App.update_progress dbProgress40 1 1 (-5) 9
        = (App.UpdateResult.InvalidProgress, dbProgress40) ∧
    specClamp (-5) = 0 ∧
    dbProgress40.enrollments.map Enrollment.progress = [40] := by
  refine ⟨by decide, by decide, by decide⟩

/-- Claim C1 amended: out-of-range progress values are rejected, not clamped.
For every integer rawProgress outside [0, 100], `update_progress` returns the
InvalidProgress rejection and leaves the store untouched; for rawProgress
within [0, 100] — exactly where the spec's clamp is the identity — it stores
and returns the raw value on the caller's existing enrollment. -/
theorem C1_amended (s : DB) (uid eid : Nat) (raw : Int) (now : Nat) :
    ((raw < 0 ∨ raw > 100) →
      App.update_progress s uid eid raw now = (.InvalidProgress, s)) ∧
    (0 ≤ raw → raw ≤ 100 →
      s.enrollments.any (fun e => e.id == eid && e.userId == uid) = true →
      (App.update_progress s uid eid raw now).1 = .Updated raw ∧
      specClamp raw = raw ∧
      ∀ e ∈ (App.update_progress s uid eid raw now).2.enrollments,
        e.id = eid → e.progress = raw) := by
  constructor
  · exact update_progress_reject s uid eid raw now
  · intro h0 h100 hmem
    have hn : ¬(raw < 0 ∨ raw > 100) := by omega
    rw [update_progress_success s uid eid raw now hn hmem]
    refine ⟨rfl, by unfold specClamp; rw [min_eq_right h100, max_eq_right h0], ?_⟩
    intro e he heid
    rw [List.mem_map] at he
    obtain ⟨e0, _, rfl⟩ := he
    by_cases h : e0.id == eid
    · simp [h]
    · simp only [h, if_false] at heid ⊢
      exact absurd heid (by simpa using h)

/-- Witness for C1's amended theorem: rawProgress 250 is rejected while 57 is
stored as submitted. -/
theorem C1_amended_witness :
    App.update_progress dbProgress40 1 1 250 9
        = (App.UpdateResult.InvalidProgress, dbProgress40) ∧
    (App.update_progress dbProgress40 1 1 57 9).1 = App.UpdateResult.Updated 57 :=
  ⟨(C1_amended dbProgress40 1 1 250 9).1 (by omega),
   ((C1_amended dbProgress40 1 1 57 9).2 (by omega) (by omega) (by decide)).1⟩

/-- Claim C2: for a pair not yet enrolled, two sequential enroll calls yield
Created then AlreadyEnrolled; the second call performs no mutation, and
exactly one enrollment row for the pair — created with progress 0 — exists
afterwards.  Holds for the `enroll` handlers of both `app.py` and `main.py`,
which end in the same state. -/
theorem C2_enroll_twice (s : DB) (u c t1 t2 : Nat)
    (h : pairExists s u c = false) :
    (App.enroll s u c t1).1 = .Created ∧
    (App.enroll (App.enroll s u c t1).2 u c t2).1 = .AlreadyEnrolled ∧
    (App.enroll (App.enroll s u c t1).2 u c t2).2 = (App.enroll s u c t1).2 ∧
    (pairRows (App.enroll (App.enroll s u c t1).2 u c t2).2 u c).length = 1 ∧
    (∀ e ∈ pairRows (App.enroll (App.enroll s u c t1).2 u c t2).2 u c,
        e.progress = 0 ∧ e.enrolledAt = t1) ∧
    Main.enroll s u c t1 = (.Created, (App.enroll s u c t1).2) ∧
    Main.enroll (App.enroll s u c t1).2 u c t2
        = (.AlreadyEnrolled, (App.enroll s u c t1).2) := by
  have h1 := app_enroll_fresh s u c t1 h
  have hex : pairExists (App.enroll s u c t1).2 u c = true := by
    rw [h1]; exact pairExists_insertEnrollment s u c t1
  have h2 := app_enroll_existing (App.enroll s u c t1).2 u c t2 hex
  refine ⟨by rw [h1], by rw [h2], by rw [h2], ?_, ?_, ?_, ?_⟩
  · rw [h2, h1]
    show (pairRows (insertEnrollment s u c t1) u c).length = 1
    rw [pairRows_insertEnrollment, pairRows_eq_nil s u c h]
    rfl
  · rw [h2, h1]
    show ∀ e ∈ pairRows (insertEnrollment s u c t1) u c, _
    rw [pairRows_insertEnrollment, pairRows_eq_nil s u c h]
    intro e he
    rw [List.nil_append, List.mem_singleton] at he
    subst he
    exact ⟨rfl, rfl⟩
  · rw [main_enroll_fresh s u c t1 h, h1]
  · exact main_enroll_existing (App.enroll s u c t1).2 u c t2 hex

/-- Witness for C2: user 1 enrolling twice in course 1 from the base state. -/
theorem C2_enroll_twice_witness :
    (App.enroll dbBase 1 1 5).1 = App.EnrollResult.Created ∧
    (App.enroll (App.enroll dbBase 1 1 5).2 1 1 6).1
        = App.EnrollResult.AlreadyEnrolled ∧
    (pairRows (App.enroll (App.enroll dbBase 1 1 5).2 1 1 6).2 1 1).length = 1 :=
  ⟨(C2_enroll_twice dbBase 1 1 5 6 (by decide)).1,
   (C2_enroll_twice dbBase 1 1 5 6 (by decide)).2.1,
   (C2_enroll_twice dbBase 1 1 5 6 (by decide)).2.2.2.1⟩

/-- Claim C3: the spec requires the existence check and insert to form one
atomic conditional write backed by a uniqueness constraint on
(user_id, course_id).  In `app.py` the `enrollments` table has no such
constraint, and the handler is a check-then-act pair: under the overlapped
schedule — both SELECTs before either INSERT — two concurrent enroll calls
for the fresh pair (1, 1) leave two enrollment rows, not one. -/
theorem C3_counterexample :
    (pairRows (appDoubleEnroll true dbBase 1 1 5 6) 1 1).length = 2 := by
  decide

/-- Claim C3 amended: only `main.py`'s schema declares
UNIQUE(user_id, course_id).  Under that schema two concurrent enroll calls
for a fresh pair — whether scheduled sequentially or overlapped — leave
exactly one enrollment row, the loser's INSERT failing and rolling back;
under `app.py`'s schema (no constraint) the overlapped schedule leaves two
rows. -/
theorem C3_amended (ov : Bool) (s : DB) (u c t1 t2 : Nat)
    (h : pairExists s u c = false) :
    (pairRows (mainDoubleEnroll ov s u c t1 t2) u c).length = 1 ∧
    (pairRows (appDoubleEnroll true s u c t1 t2) u c).length = 2 := by
  have hA : appDoubleEnroll true s u c t1 t2
      = insertEnrollment (insertEnrollment s u c t1) u c t2 := by
    unfold appDoubleEnroll
    simp [h]
  have hM : mainDoubleEnroll ov s u c t1 t2 = insertEnrollment s u c t1 := by
    cases ov
    · show (Main.enroll (Main.enroll s u c t1).2 u c t2).2 = _
      rw [main_enroll_fresh s u c t1 h]
      show (Main.enroll (insertEnrollment s u c t1) u c t2).2 = _
      rw [main_enroll_existing _ u c t2 (pairExists_insertEnrollment s u c t1)]
    · unfold mainDoubleEnroll
      simp [h, insertEnrollmentUnique, pairExists_insertEnrollment]
  constructor
  · rw [hM, pairRows_insertEnrollment, pairRows_eq_nil s u c h]
    rfl
  · rw [hA, pairRows_insertEnrollment, pairRows_insertEnrollment,
        pairRows_eq_nil s u c h]
    rfl

/-- Witness for C3's amended theorem: the racy schedule on the base state
leaves one row under `main.py`'s schema, two under `app.py`'s. -/
theorem C3_amended_witness :
    (pairRows (mainDoubleEnroll true dbBase 1 1 5 6) 1 1).length = 1 ∧
    (pairRows (appDoubleEnroll true dbBase 1 1 5 6) 1 1).length = 2 :=
  C3_amended true dbBase 1 1 5 6 (by decide)

/-- Claim C5: the spec says enroll fails with NotFoundError when courseId
does not reference an existing Course, creating no row.  Neither handler
checks course existence: with no course 999 in the catalog, enroll(1, 999)
reports success and inserts an enrollment row in both variants. -/
theorem C5_counterexample :
    dbBase.courses.any (fun co => co.id == 999) = false ∧
    (App.enroll dbBase 1 999 5).1 = App.EnrollResult.Created ∧
    (pairRows (App.enroll dbBase 1 999 5).2 1 999).length = 1 ∧
    (Main.enroll dbBase 1 999 5).1 = Main.EnrollResult.Created ∧
    (pairRows (Main.enroll dbBase 1 999 5).2 1 999).length = 1 := by
  refine ⟨by decide, by decide, by decide, by decide, by decide⟩

/-- Claim C5 amended: `enroll` has no NotFoundError path.  Even when courseId
references no existing Course, a fresh (user, course) pair is accepted: both
handlers return Created and insert an enrollment row for the pair. -/
theorem C5_amended (s : DB) (u c t : Nat)
    (_hc : s.courses.any (fun co => co.id == c) = false)
    (h : pairExists s u c = false) :
    App.enroll s u c t = (.Created, insertEnrollment s u c t) ∧
    Main.enroll s u c t = (.Created, insertEnrollment s u c t) ∧
    (pairRows (insertEnrollment s u c t) u c).length = 1 :=
  ⟨app_enroll_fresh s u c t h, main_enroll_fresh s u c t h, by
    rw [pairRows_insertEnrollment, pairRows_eq_nil s u c h]; rfl⟩

/-- Witness for C5's amended theorem: course 999 does not exist in the base
state, yet enroll inserts a row for it. -/
theorem C5_amended_witness :
    App.enroll dbBase 1 999 5
        = (App.EnrollResult.Created, insertEnrollment dbBase 1 999 5) ∧
    Main.enroll dbBase 1 999 5
        = (Main.EnrollResult.Created, insertEnrollment dbBase 1 999 5) ∧
    (pairRows (insertEnrollment dbBase 1 999 5) 1 999).length = 1 :=
  C5_amended dbBase 1 999 5 (by decide) (by decide)

theorem completedAtSet_register (hash : String → String) (s : DB)
    (un em secret : String) (t : Nat) (hs : CompletedAtSet s) :
    CompletedAtSet (App.register hash s un em secret t).2 := by
  unfold App.register
  split
  · exact hs
  · exact hs

theorem completedAtSet_add_course (s : DB)
    (title description category instructor : String) (duration : Nat)
    (level : String) (t : Nat) (hs : CompletedAtSet s) :
    CompletedAtSet
      (App.add_course s title description category instructor duration level t) :=
  hs

theorem completedAtSet_enroll (s : DB) (u c t : Nat) (hs : CompletedAtSet s) :
    CompletedAtSet (App.enroll s u c t).2 := by
  unfold App.enroll
  split
  · exact hs
  · intro e he
    rw [show (insertEnrollment s u c t).enrollments
          = s.enrollments ++
            [{ id := s.nextEnrollmentId, userId := u, courseId := c,
               progress := 0, enrolledAt := t, completedAt := none }] from rfl,
        List.mem_append] at he
    rcases he with he | he
    · exact hs e he
    · rw [List.mem_singleton] at he
      subst he
      intro h100
      simp at h100

theorem completedAtSet_update_progress (s : DB) (uid eid : Nat) (raw : Int)
    (t : Nat) (hs : CompletedAtSet s) :
    CompletedAtSet (App.update_progress s uid eid raw t).2 := by
  by_cases h0 : raw < 0 ∨ raw > 100
  · rw [update_progress_reject s uid eid raw t h0]; exact hs
  · cases hmem : s.enrollments.any (fun e => e.id == eid && e.userId == uid) with
    | false => rw [update_progress_notFound s uid eid raw t h0 hmem]; exact hs
    | true =>
      rw [update_progress_success s uid eid raw t h0 hmem]
      intro e he h100
      rw [List.mem_map] at he
      obtain ⟨e0, he0, rfl⟩ := he
      by_cases hid : e0.id == eid
      · simp only [hid, if_true] at h100 ⊢
        subst h100
        simp
      · simp only [hid, if_false] at h100 ⊢
        exact hs e0 he0 h100

theorem update_to_100 (s : DB) (uid eid t : Nat)
    (hmem : s.enrollments.any (fun e => e.id == eid && e.userId == uid) = true) :
    (App.update_progress s uid eid 100 t).1 = .Updated 100 ∧
    (∀ e ∈ (App.update_progress s uid eid 100 t).2.enrollments,
        e.id = eid → e.completedAt = some t) ∧
    (App.update_progress s uid eid 100 t).2.enrollments.any
        (fun e => e.id == eid && e.userId == uid) = true := by
  rw [update_progress_success s uid eid 100 t (by omega) hmem]
  refine ⟨rfl, ?_, ?_⟩
  · intro e he heid
    rw [List.mem_map] at he
    obtain ⟨e0, he0, rfl⟩ := he
    by_cases hid : e0.id == eid
    · simp [hid]
    · simp only [hid, if_false] at heid
      exact absurd heid (by simpa using hid)
  · rw [List.any_eq_true] at hmem ⊢
    obtain ⟨e0, he0, hp⟩ := hmem
    refine ⟨_, List.mem_map_of_mem _ he0, ?_⟩
    by_cases hid : e0.id == eid
    · simpa [hid] using hp
    · simp only [hid, if_false]
      exact hp

/-- Password-hash stand-in used for the concrete request chains. -/
def c4Hash : String → String := fun _ => "pw"

/-- State after registering user "alice" (id 1) in the empty store. -/
def c4s1 : DB := (App.register c4Hash dbEmpty "alice" "a@x" "secret" 1).2

/-- State after an administrator adds course 1. -/
def c4s2 : DB := App.add_course c4s1 "Python" "" "Programming" "Ada" 40 "Beginner" 2

/-- State after user 1 enrolls in course 1 (enrollment id 1). -/
def c4s3 : DB := (App.enroll c4s2 1 1 10).2

/-- State after user 1 pushes progress to 100: `completed_at` becomes 20. -/
def c4s4 : DB := (App.update_progress c4s3 1 1 100 20).2

/-- State after user 1 lowers progress back to 50. -/
def c4s5 : DB := (App.update_progress c4s4 1 1 50 30).2

/-- Claim C4: the spec's invariant says the completion timestamp is non-null
iff progress equals 100 in every reachable state.  The "only if" direction
fails: `update_progress` never clears `completed_at`, so after register,
add course, enroll, update to 100, update back to 50 — all ordinary
operations — the store reaches a state whose single enrollment row has
progress 50 with `completed_at` still set to 20. -/
theorem C4_counterexample :
    AppReachable c4Hash dbEmpty c4s5 ∧
    c4s5.enrollments = [{ id := 1, userId := 1, courseId := 1, progress := 50,
                          enrolledAt := 10, completedAt := some 20 }] := by
  constructor
  · exact .tail (.tail (.tail (.tail (.tail .refl
      (AppStep.register dbEmpty "alice" "a@x" "secret" 1))
      (AppStep.add_course c4s1 "Python" "" "Programming" "Ada" 40 "Beginner" 2))
      (AppStep.enroll c4s2 1 1 10))
      (AppStep.update_progress c4s3 1 1 100 20))
      (AppStep.update_progress c4s4 1 1 50 30)
  · decide

/-- Claim C4 amended: only the "if" direction of the invariant holds: in every
state reachable by the `app.py` operations from a state satisfying it (e.g.
any state without enrollments), an enrollment at progress 100 has a non-null
completion timestamp.  Setting progress to 100 sets `completed_at` to the
current time, and setting it to 100 again succeeds and leaves `completed_at`
set (to the later time) without error.  The converse — non-null `completed_at`
implies progress 100 — does not hold, since lowering progress never clears
the timestamp. -/
theorem C4_amended (hash : String → String) :
    (∀ s0 s, CompletedAtSet s0 → AppReachable hash s0 s → CompletedAtSet s) ∧
    (∀ s uid eid t1 t2,
      s.enrollments.any (fun e => e.id == eid && e.userId == uid) = true →
      (App.update_progress s uid eid 100 t1).1 = .Updated 100 ∧
      (∀ e ∈ (App.update_progress s uid eid 100 t1).2.enrollments,
          e.id = eid → e.completedAt = some t1) ∧
      (App.update_progress (App.update_progress s uid eid 100 t1).2
          uid eid 100 t2).1 = .Updated 100 ∧
      (∀ e ∈ (App.update_progress (App.update_progress s uid eid 100 t1).2
          uid eid 100 t2).2.enrollments,
          e.id = eid → e.completedAt ≠ none)) := by
  constructor
  · intro s0 s hinv hreach
    induction hreach with
    | refl => exact hinv
    | tail _ hstep ih =>
      cases hstep with
      | register un em secret t => exact completedAtSet_register hash _ un em secret t ih
      | enroll u c t => exact completedAtSet_enroll _ u c t ih
      | update_progress uid eid raw t => exact completedAtSet_update_progress _ uid eid raw t ih
      | add_course title description category instructor duration level t =>
          exact completedAtSet_add_course _ title description category instructor duration level t ih
  · intro s uid eid t1 t2 hmem
    obtain ⟨hr1, hset1, hmem1⟩ := update_to_100 s uid eid t1 hmem
    obtain ⟨hr2, hset2, _⟩ := update_to_100 _ uid eid t2 hmem1
    refine ⟨hr1, hset1, hr2, ?_⟩
    intro e he heid
    rw [hset2 e he heid]
    exact Option.some_ne_none t2

/-- Witness for C4's amended theorem: one enroll step preserves the
half-invariant from the concrete enrolled state, and pushing progress to 100
there reports success. -/
theorem C4_amended_witness :
    CompletedAtSet (App.enroll dbEnrolled1 1 2 7).2 ∧
    (App.update_progress dbEnrolled1 1 1 100 20).1 = App.UpdateResult.Updated 100 :=
  ⟨(C4_amended c4Hash).1 dbEnrolled1 _
      (by unfold CompletedAtSet; decide)
      (Relation.ReflTransGen.tail Relation.ReflTransGen.refl
        (AppStep.enroll dbEnrolled1 1 2 7)),
   ((C4_amended c4Hash).2 dbEnrolled1 1 1 20 30 (by decide)).1⟩

/-- Claim C6: registration succeeds exactly once for a fresh
(username, email) pair — the user row is appended with the administrator flag
false and the hashed secret — and any later register reusing either the same
username or the same email hits a UNIQUE violation, surfaces as
ConflictError, and leaves the user store unchanged. -/
theorem C6_register_once (hash : String → String) (s : DB)
    (un em secret : String) (t1 : Nat)
    (hfresh : s.users.any (fun u => u.username == un || u.email == em) = false) :
    (App.register hash s un em secret t1).1 = .Created s.nextUserId ∧
    (App.register hash s un em secret t1).2.users
        = s.users ++ [{ id := s.nextUserId, username := un, email := em,
                        password := hash secret, isAdmin := false,
                        createdAt := t1 }] ∧
    (∀ em2 sec2 t2,
      App.register hash (App.register hash s un em secret t1).2 un em2 sec2 t2
        = (.ConflictError, (App.register hash s un em secret t1).2)) ∧
    (∀ un2 sec2 t2,
      App.register hash (App.register hash s un em secret t1).2 un2 em sec2 t2
        = (.ConflictError, (App.register hash s un em secret t1).2)) := by
  have h1 : App.register hash s un em secret t1
      = (.Created s.nextUserId,
         { s with
           users := s.users ++
             [{ id := s.nextUserId, username := un, email := em,
                password := hash secret, isAdmin := false, createdAt := t1 }],
           nextUserId := s.nextUserId + 1 }) := by
    rw [App.register]
    simp [hfresh]
  refine ⟨by rw [h1], by rw [h1], ?_, ?_⟩
  · intro em2 sec2 t2
    rw [h1, App.register]
    simp [List.any_append]
  · intro un2 sec2 t2
    rw [h1, App.register]
    simp [List.any_append]

/-- Witness for C6: registering "alice" in the empty store succeeds; reusing
her username (or her email) immediately afterwards is rejected. -/
theorem C6_register_once_witness :
    (App.register c4Hash dbEmpty "alice" "a@x" "pw" 1).1
        = App.RegisterResult.Created 1 ∧
    App.register c4Hash (App.register c4Hash dbEmpty "alice" "a@x" "pw" 1).2
        "alice" "other@x" "pw2" 2
      = (App.RegisterResult.ConflictError,
         (App.register c4Hash dbEmpty "alice" "a@x" "pw" 1).2) ∧
    App.register c4Hash (App.register c4Hash dbEmpty "alice" "a@x" "pw" 1).2
        "alice2" "a@x" "pw2" 2
      = (App.RegisterResult.ConflictError,
         (App.register c4Hash dbEmpty "alice" "a@x" "pw" 1).2) :=
  ⟨(C6_register_once c4Hash dbEmpty "alice" "a@x" "pw" 1 (by decide)).1,
   (C6_register_once c4Hash dbEmpty "alice" "a@x" "pw" 1 (by decide)).2.2.1
     "other@x" "pw2" 2,
   (C6_register_once c4Hash dbEmpty "alice" "a@x" "pw" 1 (by decide)).2.2.2
     "alice2" "pw2" 2⟩

/-- Claim C7: the spec says the dashboard's featured list never contains a
course the user is already enrolled in.  That is true of `app.py`, but
`main.py`'s dashboard runs `SELECT * FROM courses ORDER BY RANDOM() LIMIT 3`
with no enrollment filter: with user 1 enrolled in course 1 and the identity
permutation standing for RANDOM(), course 1 — which has an enrollment —
is returned. -/
theorem C7_counterexample :
    dbEnrolled1.courses.Perm dbEnrolled1.courses ∧
    course1 ∈ Main.dashboardFeatured dbEnrolled1 1 dbEnrolled1.courses ∧
    pairExists dbEnrolled1 1 course1.id = true :=
  ⟨List.Perm.refl _, by decide, by decide⟩

/-- Claim C7 amended: `app.py`'s featured query satisfies the claim — every
returned course is in the catalog, has no enrollment for the user, and at
most 3 are returned — while `main.py`'s featured query is only bounded to 3
catalog courses and may include enrolled ones. -/
theorem C7_amended (s : DB) (u : Nat) (shuffledA shuffledM : List Course)
    (hA : shuffledA.Perm (App.unenrolledCourses s u))
    (hM : shuffledM.Perm s.courses) :
    (∀ c ∈ App.dashboardFeatured s u shuffledA,
        c ∈ s.courses ∧ pairExists s u c.id = false) ∧
    (App.dashboardFeatured s u shuffledA).length ≤ 3 ∧
    (∀ c ∈ Main.dashboardFeatured s u shuffledM, c ∈ s.courses) ∧
    (Main.dashboardFeatured s u shuffledM).length ≤ 3 := by
  refine ⟨?_, List.length_take_le 3 _, ?_, List.length_take_le 3 _⟩
  · intro c hc
    have hc2 : c ∈ App.unenrolledCourses s u :=
      hA.mem_iff.mp (List.mem_of_mem_take hc)
    rw [App.unenrolledCourses, List.mem_filter] at hc2
    refine ⟨hc2.1, ?_⟩
    have h3 := hc2.2
    simpa using h3
  · intro c hc
    exact hM.mem_iff.mp (List.mem_of_mem_take hc)

/-- Witness for C7's amended theorem at the concrete enrolled state, with the
identity permutations standing for RANDOM(). -/
theorem C7_amended_witness :
    (App.dashboardFeatured dbEnrolled1 1
        (App.unenrolledCourses dbEnrolled1 1)).length ≤ 3 ∧
    (Main.dashboardFeatured dbEnrolled1 1 dbEnrolled1.courses).length ≤ 3 :=
  ⟨(C7_amended dbEnrolled1 1 _ _ (List.Perm.refl _) (List.Perm.refl _)).2.1,
   (C7_amended dbEnrolled1 1 _ _ (List.Perm.refl _) (List.Perm.refl _)).2.2.2⟩

theorem filterMap_if_eq_filter {α β : Type} (p : α → Bool) (g : α → Option β)
    (l : List α) :
    l.filterMap (fun a => if p a then g a else none)
      = (l.filter p).filterMap g := by
  induction l with
  | nil => rfl
  | cons a l ih =>
    by_cases h : p a
    · simp [List.filterMap_cons, List.filter_cons, h, ih]
    · simp [List.filterMap_cons, List.filter_cons, h, ih]

/-- Claim C8: the spec says the dashboard's enrollment list is ordered
most-recently-enrolled first.  The query has no ORDER BY: with user 1
enrolled in course 1 at time 10 and then in course 2 at time 20 (insertion
order), the handler returns the time-10 row first — the oldest enrollment
leads, so the list is not most-recently-enrolled first. -/
theorem C8_counterexample :
    (App.listForUser dbTwoEnroll 1).map (fun r => r.2.2) = [10, 20] ∧
    recentFirst (App.listForUser dbTwoEnroll 1) = false := by
  refine ⟨by decide, by decide⟩

/-- Claim C8 amended: `listForUser` returns exactly the user's enrollments,
each as (Course, progress, enrolledAt) with the course looked up by id —
but in the storage (insertion) order of the enrollments table, the query
having no ORDER BY, not most-recently-enrolled first. -/
theorem C8_amended (s : DB) (u : Nat) :
    (∀ r ∈ App.listForUser s u,
      ∃ e ∈ s.enrollments, e.userId = u ∧ r.1 ∈ s.courses ∧
        r.1.id = e.courseId ∧ r.2.1 = e.progress ∧ r.2.2 = e.enrolledAt) ∧
    (∀ e ∈ s.enrollments, e.userId = u → ∀ c,
      s.courses.find? (fun c2 => c2.id == e.courseId) = some c →
      (c, e.progress, e.enrolledAt) ∈ App.listForUser s u) ∧
    App.listForUser s u
      = (s.enrollments.filter (fun e => e.userId == u)).filterMap
          (fun e => (s.courses.find? (fun c => c.id == e.courseId)).map
            (fun c => (c, e.progress, e.enrolledAt))) := by
  refine ⟨?_, ?_, ?_⟩
  · intro r hr
    rw [App.listForUser, List.mem_filterMap] at hr
    obtain ⟨e, he, hfe⟩ := hr
    by_cases hu : e.userId == u
    · rw [if_pos hu, Option.map_eq_some'] at hfe
      obtain ⟨c, hc, rfl⟩ := hfe
      refine ⟨e, he, by simpa using hu, List.mem_of_find?_eq_some hc, ?_, rfl, rfl⟩
      have h4 := List.find?_some hc
      simpa using h4
    · rw [if_neg hu] at hfe
      cases hfe
  · intro e he hu c hc
    rw [App.listForUser, List.mem_filterMap]
    refine ⟨e, he, ?_⟩
    rw [if_pos (by simpa using hu), hc]
    rfl
  · rw [App.listForUser]
    exact filterMap_if_eq_filter _ _ _

/-- Witness for C8's amended theorem: the time-10 enrollment of user 1
appears in the dashboard list paired with course 1. -/
theorem C8_amended_witness :
    ((course1, (0 : Int), (10 : Nat)) : Course × Int × Nat)
        ∈ App.listForUser dbTwoEnroll 1 :=
  (C8_amended dbTwoEnroll 1).2.1
    { id := 1, userId := 1, courseId := 1, progress := 0, enrolledAt := 10,
      completedAt := none }
    (by decide) rfl course1 (by decide)

/-- Claim C9: login hands out a session user only when the stored hash
verifies against the supplied password, and its observable outcome — the
session assignment together with the flash message — is identical for an
unknown username and for a wrong password: both failing runs produce
(no session, "Invalid credentials"), so no output reveals which check
failed. -/
theorem C9_login (checkPw : String → String → Bool) :
    (∀ s un pw su msg, App.login checkPw s un pw = (some su, msg) →
      ∃ u ∈ s.users, u.username = un ∧ checkPw u.password pw = true ∧
        su = { id := u.id, username := u.username, email := u.email,
               isAdmin := u.isAdmin }) ∧
    (∀ s1 s2 un1 pw1 un2 pw2,
      s1.users.find? (fun u => u.username == un1) = none →
      (∀ u, s2.users.find? (fun u2 => u2.username == un2) = some u →
        checkPw u.password pw2 = false) →
      App.login checkPw s1 un1 pw1 = App.login checkPw s2 un2 pw2 ∧
      App.login checkPw s1 un1 pw1 = (none, "Invalid credentials")) := by
  constructor
  · intro s un pw su msg h
    rw [App.login] at h
    cases hf : s.users.find? (fun u => u.username == un) with
    | none =>
      rw [hf] at h
      simp at h
    | some u =>
      rw [hf] at h
      by_cases hc : checkPw u.password pw
      · simp only [hc, if_true, Prod.mk.injEq, Option.some_inj] at h
        obtain ⟨h1, _⟩ := h
        have hn := List.find?_some hf
        exact ⟨u, List.mem_of_find?_eq_some hf, by simpa using hn, hc, h1.symm⟩
      · simp [hc] at h
  · intro s1 s2 un1 pw1 un2 pw2 h1 h2
    have e1 : App.login checkPw s1 un1 pw1 = (none, "Invalid credentials") := by
      rw [App.login, h1]
    have e2 : App.login checkPw s2 un2 pw2 = (none, "Invalid credentials") := by
      rw [App.login]
      cases hf : s2.users.find? (fun u2 => u2.username == un2) with
      | none => rfl
      | some u =>
        have h3 := h2 u hf
        simp [h3]
    exact ⟨e1.trans e2.symm, e1⟩

/-- Stand-in credential check for the concrete login runs: the stored token
verifies only against an identical submitted secret. -/
def checkPwEq : String → String → Bool := fun stored given => stored == given

/-- Witness for C9: the unknown-username run on the empty store and the
wrong-password run against user "bob" are observably identical failures. -/
theorem C9_login_witness :
    App.login checkPwEq dbEmpty "alice" "pw"
        = App.login checkPwEq dbBase "bob" "wrong" ∧
    App.login checkPwEq dbEmpty "alice" "pw" = (none, "Invalid credentials") :=
  (C9_login checkPwEq).2 dbEmpty dbBase "alice" "pw" "bob" "wrong" (by decide)
    (fun u h => by
      rw [show dbBase.users.find? (fun u2 => u2.username == "bob")
            = some bobUser from by decide] at h
      injection h with h1
      subst h1
      decide)

/-- Claim C10 (frame): a successful `update_progress` touches only the
targeted enrollment row, and there only the `progress` and `completed_at`
fields: the users and courses relations and the id counters are unchanged,
every row with a different id is passed through untouched, and every
resulting row keeps its identity, owner, course and enrollment time. -/
theorem C10_update_progress_frame (s : DB) (uid eid : Nat) (raw : Int)
    (now : Nat) (v : Int) (s2 : DB)
    (h : App.update_progress s uid eid raw now = (.Updated v, s2)) :
    s2.users = s.users ∧ s2.courses = s.courses ∧
    s2.nextUserId = s.nextUserId ∧ s2.nextCourseId = s.nextCourseId ∧
    s2.nextEnrollmentId = s.nextEnrollmentId ∧
    s2.enrollments = s.enrollments.map (fun e =>
      if e.id == eid then
        { e with progress := v,
                 completedAt := if v == 100 then some now else e.completedAt }
      else e) ∧
    (∀ e ∈ s.enrollments, e.id ≠ eid → e ∈ s2.enrollments) ∧
    (∀ e2 ∈ s2.enrollments, ∃ e ∈ s.enrollments, e2.id = e.id ∧
      e2.userId = e.userId ∧ e2.courseId = e.courseId ∧
      e2.enrolledAt = e.enrolledAt) := by
  by_cases h0 : raw < 0 ∨ raw > 100
  · rw [update_progress_reject s uid eid raw now h0] at h
    simp at h
  · cases hmem : s.enrollments.any (fun e => e.id == eid && e.userId == uid) with
    | false =>
      rw [update_progress_notFound s uid eid raw now h0 hmem] at h
      simp at h
    | true =>
      rw [update_progress_success s uid eid raw now h0 hmem,
          Prod.mk.injEq] at h
      obtain ⟨hv, hs⟩ := h
      injection hv with hv
      subst hv
      subst hs
      refine ⟨rfl, rfl, rfl, rfl, rfl, rfl, ?_, ?_⟩
      · intro e he hne
        exact List.mem_map.mpr ⟨e, he, by simp [beq_eq_false_iff_ne.mpr hne]⟩
      · intro e2 he2
        obtain ⟨e, he, rfl⟩ := List.mem_map.mp he2
        refine ⟨e, he, ?_⟩
        by_cases hid : e.id == eid
        · simp [hid]
        · simp [hid]

/-- Witness for C10: pushing progress to 57 on the concrete enrolled state
leaves the users and courses relations and the other fields intact. -/
theorem C10_update_progress_frame_witness :
    (App.update_progress dbProgress40 1 1 57 9).2.users = dbProgress40.users ∧
    (App.update_progress dbProgress40 1 1 57 9).2.courses
        = dbProgress40.courses :=
  ⟨(C10_update_progress_frame dbProgress40 1 1 57 9 57
      (App.update_progress dbProgress40 1 1 57 9).2 (by decide)).1,
   (C10_update_progress_frame dbProgress40 1 1 57 9 57
      (App.update_progress dbProgress40 1 1 57 9).2 (by decide)).2.1⟩
